import Mathlib

/-!
# Verification of the DNS MCP server's query-dispatch and analysis engine

Shallow embedding of the concurrent DNS dispatch/analysis core of
`dns_mcp_server` (bulk_tools.py, osint_tools.py, formatters.py, config.py,
resolvers.py, rate_limiter.py) together with theorems settling the spec's
claims about it.

Conventions of the embedding:
* Python dicts whose key/value behaviour matters (error responses) are
  modelled as association lists with Python `dict.update` semantics.
* Wall-clock times are nondeterministic inputs; they are passed in as
  parameters (type `ℚ`) where a claim mentions them.
* The completion order of concurrently gathered tasks is modelled as an
  arbitrary permutation of the task indices; `asyncio.gather` is modelled
  as collecting `(index, result)` pairs in completion order and placing
  each result back at its original index, which is exactly what the
  library function guarantees.
* The behaviour of the network (what each per-task query returns or
  raises) is an oracle parameter `Nat → TaskBehavior`.
-/

/-! ## Python string helpers

`strContains hay needle` models Python's `needle in hay` substring test. -/

/-- `listStartsWith p l` : `p` is an initial segment of `l`. -/
def listStartsWith : List Char → List Char → Bool
  | [], _ => true
  | _ :: _, [] => false
  | a :: p, b :: l => a == b && listStartsWith p l

/-- `listHasSub needle hay` : `needle` occurs contiguously inside `hay`. -/
def listHasSub (needle : List Char) : List Char → Bool
  | [] => listStartsWith needle []
  | b :: l => listStartsWith needle (b :: l) || listHasSub needle l

/-- Python's `needle in hay` substring membership test. -/
def strContains (hay needle : String) : Bool :=
  listHasSub needle.data hay.data

/-- Python `s.upper()` (all inputs in play are ASCII). -/
def strToUpper (s : String) : String := ⟨s.data.map Char.toUpper⟩

/-- Python `s.lower()` (all inputs in play are ASCII). -/
def strToLower (s : String) : String := ⟨s.data.map Char.toLower⟩

/-! ## Python dict model

Association list with `dict.update` semantics: assigning to an existing
key replaces its value in place, assigning a fresh key appends it. -/

/-- A Python value as it appears in the error-response dictionaries:
a string, a list of strings, or a nested dict. -/
inductive PyVal where
  | s (v : String)
  | strList (v : List String)
  | dict (v : List (String × PyVal))

/-- Python dict modelled as an association list (insertion ordered). -/
abbrev PyDict := List (String × PyVal)

/-- `d[k] = v` : replace the value at `k` if present, else append. -/
def dictSet (d : PyDict) (k : String) (v : PyVal) : PyDict :=
  match d with
  | [] => [(k, v)]
  | (k', v') :: t => if k' = k then (k, v) :: t else (k', v') :: dictSet t k v

/-- Python `d.update(kvs)` : assign each pair of `kvs` in order. -/
def dictUpdate (d : PyDict) (kvs : PyDict) : PyDict :=
  kvs.foldl (fun acc kv => dictSet acc kv.1 kv.2) d

/-- Dict lookup (`d.get(k)` / `d[k]`). -/
def dictGet (d : PyDict) (k : String) : Option PyVal :=
  match d with
  | [] => none
  | (k', v) :: t => if k' = k then some v else dictGet t k

/-- The value an update list `kvs` itself assigns to `k` (the last
assignment wins, as in Python). -/
def lookupLast (kvs : PyDict) (k : String) : Option PyVal :=
  match kvs with
  | [] => none
  | kv :: t =>
    match lookupLast t k with
    | some v => some v
    | none => if kv.1 = k then some kv.2 else none

/-! ## Sorting of record strings

`sortRecords` models Python's `sorted(records)` for the propagation
grouping key: the unique `≤`-ordered arrangement of the list (every
correct comparison sort, Python's included, produces it, since `≤` on
strings is a total order and equal keys are identical values). -/

/-- Python `sorted(records)` on a list of record strings. -/
def sortRecords (l : List String) : List String :=
  l.insertionSort (· ≤ ·)

/-! ## formatters.py — `format_error_response`

Embedded from `src/dns_mcp_server/formatters.py` lines 10-136.  The
`datetime.utcnow().isoformat()` timestamp is nondeterministic and passed
in as the parameter `now`.  The five classification branches update the
response with their `error`/`type`/`osint_insights` triple exactly as the
source's `response.update({...})` calls do. -/

/-- The `osint_insights` nested dict of the `domain_not_found` branch. -/
def nxdomainInsights : PyVal :=
  .dict [("possible_scenarios", .strList
            ["Domain never existed (typosquatting target)",
             "Domain expired (abandoned infrastructure)",
             "Domain suspended (possible takedown)",
             "DNS configuration error"]),
         ("investigation_tips", .strList
            ["Check historical DNS records",
             "Search for similar domain variations",
             "Verify domain registration status"])]

/-- The `osint_insights` nested dict of the `no_records` branch. -/
def noAnswerInsights : PyVal :=
  .dict [("possible_scenarios", .strList
            ["Record type not configured",
             "Selective DNS response (geo-blocking)",
             "DNS filtering/sinkholing"]),
         ("investigation_tips", .strList
            ["Try different record types",
             "Query from different resolver locations",
             "Check if domain is parked"])]

/-- The `osint_insights` nested dict of the `timeout` branch. -/
def timeoutInsights : PyVal :=
  .dict [("possible_scenarios", .strList
            ["Slow/overloaded nameserver",
             "Network filtering",
             "DDoS protection triggering"]),
         ("investigation_tips", .strList
            ["Retry with longer timeout",
             "Try alternative resolver",
             "Check nameserver health"])]

/-- The `osint_insights` nested dict of the `server_failure` branch. -/
def servfailInsights : PyVal :=
  .dict [("possible_scenarios", .strList
            ["Authoritative server error",
             "DNSSEC validation failure",
             "Nameserver misconfiguration"]),
         ("investigation_tips", .strList
            ["Try different resolver",
             "Check DNSSEC status",
             "Verify nameserver configuration"])]

/-- The `osint_insights` nested dict of the `query_refused` branch. -/
def refusedInsights : PyVal :=
  .dict [("possible_scenarios", .strList
            ["Recursive queries disabled",
             "Access control restrictions",
             "Rate limiting active"]),
         ("investigation_tips", .strList
            ["Try authoritative nameserver",
             "Use different source IP",
             "Reduce query rate"])]

/-- One classification branch: `response.update({"error": e, "type": t,
"osint_insights": ins})` from the source's elif arms. -/
def applyClassification (d : PyDict) (e t : String) (ins : PyVal) : PyDict :=
  dictUpdate d [("error", .s e), ("type", .s t), ("osint_insights", ins)]

/-- The base response of formatters.py:27-32. -/
def baseResponse (errorType errorMsg now : String) : PyDict :=
  [("error", .s "unknown"), ("type", .s errorType),
   ("details", .s errorMsg), ("timestamp", .s now)]

/-- Base response after the `if context: response.update(context)` merge
(formatters.py:35-36). -/
def mergedResponse (errorType errorMsg now : String) (context : Option PyDict) :
    PyDict :=
  match context with
  | some ctx => dictUpdate (baseResponse errorType errorMsg now) ctx
  | none => baseResponse errorType errorMsg now

/-- `format_error_response(error, context)` (formatters.py:10-136).
`errorType` is `type(error).__name__`, `errorMsg` is `str(error)`,
`now` is the `datetime.utcnow().isoformat()` string. -/
def format_error_response (errorType errorMsg : String) (context : Option PyDict)
    (now : String) : PyDict :=
  let response := mergedResponse errorType errorMsg now context
  if strContains errorMsg "NXDOMAIN" || strContains errorMsg "No such domain" then
    applyClassification response "domain_not_found" "NXDOMAIN" nxdomainInsights
  else if strContains errorMsg "No answer" || strContains errorMsg "NODATA" then
    applyClassification response "no_records" "NoAnswer" noAnswerInsights
  else if strContains (strToLower errorMsg) "timeout" || strContains errorType "Timeout" then
    applyClassification response "timeout" "Timeout" timeoutInsights
  else if strContains errorMsg "SERVFAIL" then
    applyClassification response "server_failure" "SERVFAIL" servfailInsights
  else if strContains errorMsg "REFUSED" then
    applyClassification response "query_refused" "REFUSED" refusedInsights
  else
    response

/-! ## config.py

Embedded from `src/dns_mcp_server/config.py`. -/

/-- `DNSServerConfig.max_concurrent_workers` (config.py:27), the "safety
limit". -/
def max_concurrent_workers : Int := 50

/-- `DNSServerConfig.validate_max_workers` (config.py:56-58):
`max(1, min(workers, self.max_concurrent_workers))`.  Note: no call site
in `bulk_tools.py` invokes this helper. -/
def validate_max_workers (workers : Int) : Int :=
  max 1 (min workers max_concurrent_workers)

/-- `CDN_INDICATORS` (config.py:91-94). -/
def CDN_INDICATORS : List String :=
  ["cloudflare", "amazonaws", "cloudfront", "fastly",
   "cdn", "akamai", "edgecast", "maxcdn", "keycdn"]

/-- `is_cdn_related` (config.py:167-181) on a (non-None) record string:
`any(indicator in record.lower() for indicator in CDN_INDICATORS)`. -/
def is_cdn_related (record : String) : Bool :=
  CDN_INDICATORS.any (fun indicator => strContains (strToLower record) indicator)

/-! ## resolvers.py and rate_limiter.py — `AsyncDNSResolver.query`

Embedded from `src/dns_mcp_server/resolvers.py` lines 59-106.  The
observable effects of one call are traced as a list of events:
acquisition of the per-resolver rate-limiter token
(`dns_rate_limiter.acquire(self.resolver_id)`, rate_limiter.py:42-51,
which always succeeds after a possible delay) and the underlying
`self.resolver.query(domain, aiodns_type)` network call.  The records the
network call yields (already passed through `_format_record`) are an
oracle parameter `netResult`. -/

/-- An observable effect of `AsyncDNSResolver.query`. -/
inductive QueryEvent where
  | acquireToken (resolverId : String)
  | networkQuery (domain : String) (recordType : String)
deriving DecidableEq

/-- The keys of `query_type_map` (resolvers.py:77-88), equal to the
supported record-type set. -/
def query_type_map : List String :=
  ["A", "AAAA", "MX", "TXT", "NS", "SOA", "CNAME", "CAA", "SRV", "PTR"]

/-- `AsyncDNSResolver.query(domain, record_type)` (resolvers.py:59-106):
first the rate-limiter token is acquired, then the record type is
validated (`ValueError` if unsupported), and only then the network
resolution runs.  Returns the event trace plus the outcome. -/
def AsyncDNSResolver.query (resolverId domain recordType : String)
    (netResult : List String) : List QueryEvent × Except String (List String) :=
  let acquired : List QueryEvent := [.acquireToken resolverId]
  if query_type_map.contains (strToUpper recordType) then
    (acquired ++ [.networkQuery domain (strToUpper recordType)], .ok netResult)
  else
    (acquired, .error ("Unsupported record type: " ++ recordType))

/-- Whether an event is a network resolution attempt. -/
def QueryEvent.isNetwork : QueryEvent → Bool
  | .networkQuery _ _ => true
  | _ => false

/-! ## bulk_tools.py — concurrent bulk dispatch

Embedded from `src/dns_mcp_server/bulk_tools.py`.  A Python exception is
carried as its type name plus message. -/

/-- A Python exception value (type name and `str(e)`). -/
structure PyErr where
  typeName : String
  msg : String
deriving DecidableEq

/-- What one task's query does, as decided by the network/runtime oracle:
the awaited `resolver.query` returns records, or raises inside the task
(caught by the task's own `try`/`except`), or the task itself fails at a
level outside that `try` (surfacing as an exception object in the
`asyncio.gather(..., return_exceptions=True)` result list). -/
inductive TaskBehavior where
  | returns (records : List String)
  | raises (e : PyErr)
  | taskFails (e : PyErr)
deriving DecidableEq

/-- One entry of the bulk result list (the per-domain dict of
bulk_tools.py:72-78 / 83-95; the nondeterministic
`query_time_seconds` field is omitted, no claim depends on it). -/
inductive BulkItem where
  | ok (domain recordType : String) (records : List String)
  | err (domain recordType : String) (e : PyErr)
deriving DecidableEq

/-- The `"domain"` field of a bulk result entry. -/
def BulkItem.domain : BulkItem → String
  | .ok d _ _ => d
  | .err d _ _ => d

/-- Whether the entry carries an `"error"` key. -/
def BulkItem.isErr : BulkItem → Bool
  | .ok _ _ _ => false
  | .err _ _ _ => true

/-- An element of the `asyncio.gather(..., return_exceptions=True)`
result list: a returned dict or an exception object. -/
inductive GatherElem (α : Type) where
  | res (item : α)
  | exc (e : PyErr)
deriving DecidableEq

/-- `query_single_domain` (bulk_tools.py:64-95): the per-domain query
with its internal catch-all `except` turning a raise into an error
entry. -/
def query_single_domain (record_type domain : String) :
    TaskBehavior → Option BulkItem
  | .returns records => some (.ok domain (strToUpper record_type) records)
  | .raises e => some (.err domain (strToUpper record_type) e)
  | .taskFails _ => none

/-- `rate_limited_query` (bulk_tools.py:100-103) as seen by `gather`:
a task-level failure escapes as an exception object, everything else is
the dict produced by `query_single_domain`. -/
def rate_limited_query (record_type domain : String) (b : TaskBehavior) :
    GatherElem BulkItem :=
  match b, query_single_domain record_type domain b with
  | .taskFails e, _ => .exc e
  | _, some item => .res item
  | _, none => .exc ⟨"", ""⟩   -- unreachable: only taskFails yields none

/-! ### `asyncio.gather` with an explicit completion order

`gather` starts one task per index.  Tasks complete in an arbitrary
interleaving, modelled as a list `order` of task indices (a permutation
of `range n`); the log pairs each completion with its index, and the
result list is assembled by original index, which is `gather`'s
documented contract. -/

/-- The `(index, result)` pairs in completion order. -/
def gatherLog {α : Type} (f : Nat → GatherElem α) (order : List Nat) :
    List (Nat × GatherElem α) :=
  order.map fun i => (i, f i)

/-- Place completed results back at their original indices. -/
def gatherAssemble {α : Type} (log : List (Nat × GatherElem α)) (n : Nat) :
    List (Option (GatherElem α)) :=
  (List.range n).map fun i => (log.find? fun p => p.1 == i).map Prod.snd

/-- `asyncio.gather(*tasks, return_exceptions=True)` over `n` tasks whose
outcomes are `f` and whose completion order is `order`. -/
def asyncGather {α : Type} (f : Nat → GatherElem α) (order : List Nat) (n : Nat) :
    List (Option (GatherElem α)) :=
  gatherAssemble (gatherLog f order) n

/-- The exception-handling pass over the gathered results
(bulk_tools.py:110-130): `for i, result in enumerate(results)`, an
exception object becomes an error entry for `domains[i]`, a dict is kept
as-is. -/
def processResults (domains : List String) (record_type : String)
    (results : List (Option (GatherElem BulkItem))) : List (Option BulkItem) :=
  results.enum.map fun p =>
    p.2.map fun
      | .res item => item
      | .exc e => .err (domains.getD p.1 "") (strToUpper record_type) e

/-- The whole concurrent section of `dns_bulk_query`
(bulk_tools.py:97-130): build one rate-limited task per domain, gather
with `return_exceptions=True`, then convert task-level exceptions. -/
def dnsBulkDispatch (domains : List String) (record_type : String)
    (behav : Nat → TaskBehavior) (order : List Nat) : List (Option BulkItem) :=
  processResults domains record_type
    (asyncGather (fun i => rate_limited_query record_type (domains.getD i "") (behav i))
      order domains.length)

/-- The entry the pipeline produces for one task, as a function of that
task's own behaviour only. -/
def expectedItem (domain record_type : String) : TaskBehavior → BulkItem
  | .returns records => .ok domain (strToUpper record_type) records
  | .raises e => .err domain (strToUpper record_type) e
  | .taskFails e => .err domain (strToUpper record_type) e

/-! ### Reverse bulk lookup (`dns_bulk_reverse_lookup`, bulk_tools.py:149-290) -/

/-- What one reverse-lookup task does: `dns.reversename.from_address`
succeeds and the PTR query returns hostnames, or the PTR query raises
(inner `try`, bulk_tools.py:206-209), or `from_address` itself raises
(outer `except`, line 236), or the task fails at gather level. -/
inductive ReverseBehavior where
  | ok (reverseDomain : String) (hostnames : List String)
  | queryErr (reverseDomain : String) (e : PyErr)
  | invalidIp (e : PyErr)
  | taskFails (e : PyErr)
deriving DecidableEq

/-- One entry of the reverse-lookup result list (per-ip dict of
bulk_tools.py:213-245; nondeterministic timing field omitted). -/
inductive ReverseItem where
  | ok (ip reverseDomain : String) (hostnames : List String)
  | err (ip : String) (reverseDomain : Option String) (e : PyErr)
deriving DecidableEq

/-- The `"ip"` field of a reverse result entry. -/
def ReverseItem.ip : ReverseItem → String
  | .ok i _ _ => i
  | .err i _ _ => i

/-- `reverse_lookup_single_ip` (bulk_tools.py:189-245). -/
def reverse_lookup_single_ip (ip : String) : ReverseBehavior → Option ReverseItem
  | .ok rd hostnames => some (.ok ip rd hostnames)
  | .queryErr rd e => some (.err ip (some rd) e)
  | .invalidIp e => some (.err ip none e)
  | .taskFails _ => none

/-- `rate_limited_reverse_lookup` (bulk_tools.py:250-253) as seen by
`gather`. -/
def rate_limited_reverse_lookup (ip : String) (b : ReverseBehavior) :
    GatherElem ReverseItem :=
  match b, reverse_lookup_single_ip ip b with
  | .taskFails e, _ => .exc e
  | _, some item => .res item
  | _, none => .exc ⟨"", ""⟩   -- unreachable: only taskFails yields none

/-- The exception-handling pass of bulk_tools.py:260-275. -/
def processReverseResults (ips : List String)
    (results : List (Option (GatherElem ReverseItem))) : List (Option ReverseItem) :=
  results.enum.map fun p =>
    p.2.map fun
      | .res item => item
      | .exc e => .err (ips.getD p.1 "") none e

/-- The concurrent section of `dns_bulk_reverse_lookup`
(bulk_tools.py:247-275). -/
def dnsReverseDispatch (ips : List String) (behav : Nat → ReverseBehavior)
    (order : List Nat) : List (Option ReverseItem) :=
  processReverseResults ips
    (asyncGather (fun i => rate_limited_reverse_lookup (ips.getD i "") (behav i))
      order ips.length)

/-- The entry the reverse pipeline produces for one task. -/
def expectedReverseItem (ip : String) : ReverseBehavior → ReverseItem
  | .ok rd hostnames => .ok ip rd hostnames
  | .queryErr rd e => .err ip (some rd) e
  | .invalidIp e => .err ip none e
  | .taskFails e => .err ip none e

/-! ### Worker-count computation and report assembly -/

/-- bulk_tools.py:53 / 182 — `max_workers = ensure_int(max_workers) or 10`.
`ensure_int` (param_utils.py:9-38) is the identity on an `int` argument,
and Python `or` replaces a falsy left operand: an input of `0` becomes
the default `10`, every nonzero value (negative ones included) is kept. -/
def bulkMaxWorkers (max_workers : Int) : Int :=
  if max_workers = 0 then 10 else max_workers

/-- bulk_tools.py:56 / 185 — `actual_workers = min(max_workers,
len(domains))`, the size handed to `asyncio.Semaphore`. -/
def actual_workers (max_workers : Int) (numTasks : Nat) : Int :=
  min (bulkMaxWorkers max_workers) (numTasks : Int)

/-- Python `round(q, 3)`.  (Python uses banker's rounding at exact
half-thousandths; no theorem below evaluates `round3` at such a tie.) -/
def round3 (q : ℚ) : ℚ := (round (q * 1000) : ℚ) / 1000

/-- The dict returned by `dns_bulk_query` (empty-input literal of
bulk_tools.py:41-50, else `format_bulk_response`, formatters.py:183-218;
the `nameserver` key exists only in the latter, hence the `Option`). -/
structure BulkQueryReport where
  bulk_query : Bool
  record_type : String
  nameserver : Option String
  domain_count : Nat
  successful_queries : Nat
  failed_queries : Nat
  total_query_time_seconds : ℚ
  average_query_time_seconds : ℚ
  results : List (Option BulkItem)
deriving DecidableEq

/-- `format_bulk_response` (formatters.py:183-218).  `successful_queries`
counts results with no `"error"` key (a `none` entry — a task that never
completed, impossible under a valid completion order — counts as
failed). -/
def format_bulk_response (domains : List String) (record_type : String)
    (results : List (Option BulkItem)) (total_time : ℚ) (resolverId : String) :
    BulkQueryReport :=
  let successful := results.countP fun r =>
    match r with | some (.ok _ _ _) => true | _ => false
  { bulk_query := true
    record_type := (strToUpper record_type)
    nameserver := some resolverId
    domain_count := domains.length
    successful_queries := successful
    failed_queries := results.length - successful
    total_query_time_seconds := round3 total_time
    average_query_time_seconds :=
      if domains.isEmpty then 0 else round3 (total_time / (domains.length : ℚ))
    results := results }

/-- Observable outcome of one `dns_bulk_query` call: the returned report
plus whether/how the dispatch machinery ran. -/
structure BulkRun where
  report : BulkQueryReport
  dispatched_tasks : Nat
  semaphore_created : Bool
  semaphore_size : Option Int
deriving DecidableEq

/-- `dns_bulk_query` (bulk_tools.py:17-146).  `total_time` is the
nondeterministic wall-clock duration, `resolverId` the created
resolver's id. -/
def dns_bulk_query (domains : List String) (record_type : String)
    (max_workers : Int) (behav : Nat → TaskBehavior) (order : List Nat)
    (total_time : ℚ) (resolverId : String) : BulkRun :=
  if domains.isEmpty then
    { report :=
        { bulk_query := true
          record_type := (strToUpper record_type)
          nameserver := none
          domain_count := 0
          successful_queries := 0
          failed_queries := 0
          total_query_time_seconds := 0
          average_query_time_seconds := 0
          results := [] }
      dispatched_tasks := 0
      semaphore_created := false
      semaphore_size := none }
  else
    let results := dnsBulkDispatch domains record_type behav order
    { report := format_bulk_response domains record_type results total_time resolverId
      dispatched_tasks := domains.length
      semaphore_created := true
      semaphore_size := some (actual_workers max_workers domains.length) }

/-- The dict returned by `dns_bulk_reverse_lookup` (empty-input literal
of bulk_tools.py:171-179, else the literal of lines 281-290). -/
structure BulkReverseReport where
  bulk_reverse_lookup : Bool
  nameserver : Option String
  ip_count : Nat
  successful_queries : Nat
  failed_queries : Nat
  total_query_time_seconds : ℚ
  average_query_time_seconds : ℚ
  results : List (Option ReverseItem)
deriving DecidableEq

/-- Observable outcome of one `dns_bulk_reverse_lookup` call. -/
structure ReverseRun where
  report : BulkReverseReport
  dispatched_tasks : Nat
  semaphore_created : Bool
  semaphore_size : Option Int
deriving DecidableEq

/-- `dns_bulk_reverse_lookup` (bulk_tools.py:149-290).
`nameserverOrType` is the Python `nameserver or resolver_type`. -/
def dns_bulk_reverse_lookup (ips : List String) (nameserverOrType : String)
    (max_workers : Int) (behav : Nat → ReverseBehavior) (order : List Nat)
    (total_time : ℚ) : ReverseRun :=
  if ips.isEmpty then
    { report :=
        { bulk_reverse_lookup := true
          nameserver := none
          ip_count := 0
          successful_queries := 0
          failed_queries := 0
          total_query_time_seconds := 0
          average_query_time_seconds := 0
          results := [] }
      dispatched_tasks := 0
      semaphore_created := false
      semaphore_size := none }
  else
    let results := dnsReverseDispatch ips behav order
    let successful := results.countP fun r =>
      match r with | some (.ok _ _ _) => true | _ => false
    { report :=
        { bulk_reverse_lookup := true
          nameserver := some nameserverOrType
          ip_count := ips.length
          successful_queries := successful
          failed_queries := results.length - successful
          total_query_time_seconds := round3 total_time
          average_query_time_seconds :=
            if ips.isEmpty then 0 else round3 (total_time / (ips.length : ℚ))
          results := results }
      dispatched_tasks := ips.length
      semaphore_created := true
      semaphore_size := some (actual_workers max_workers ips.length) }

/-! ## osint_tools.py — propagation consistency analysis

Embedded from `src/dns_mcp_server/osint_tools.py` lines 180-269.  One
resolver's processed outcome is its name, its `success` flag and (for
successes) its record list.  The grouping key is
`tuple(sorted(result["records"]))` (line 197); `response_groups` is a
`defaultdict` keyed by those tuples, so the number of groups is the
number of distinct keys (the `defaultdict`'s insertion order does not
affect the count). -/

/-- One entry of the propagation check's `results` mapping. -/
structure PropResult where
  name : String
  success : Bool
  records : List String
deriving DecidableEq

/-- `successful_results` (osint_tools.py:180-183). -/
def successful_results (results : List PropResult) : List PropResult :=
  results.filter (·.success)

/-- The distinct `tuple(sorted(records))` grouping keys of
`response_groups` (osint_tools.py:191-198). -/
def responseGroupKeys (results : List PropResult) : List (List String) :=
  ((successful_results results).map (fun r => sortRecords r.records)).dedup

/-- `unique_response_count` (osint_tools.py:263) — `len(response_groups)`. -/
def unique_response_count (results : List PropResult) : Nat :=
  (responseGroupKeys results).length

/-- `is_consistent` (osint_tools.py:204) — `len(response_groups) <= 1`. -/
def is_consistent (results : List PropResult) : Bool :=
  unique_response_count results ≤ 1

/-! ## osint_tools.py — wildcard detection

Embedded from `src/dns_mcp_server/osint_tools.py` lines 272-462.  Each
probe (`test_subdomain`, lines 325-357) targets one random subdomain with
one record type ("A" or "CNAME") and either returns records
(`has_wildcard: True`) or raises (caught; `has_wildcard: False` plus an
error field). -/

/-- What one wildcard probe's query does. -/
inductive ProbeBehavior where
  | returns (records : List String)
  | raises (e : PyErr)
deriving DecidableEq

/-- The dict returned by `test_subdomain` (osint_tools.py:332-357;
nondeterministic timing field omitted). -/
structure ProbeResult where
  test_domain : String
  record_type : String
  has_wildcard : Bool
  records : List String
  error : Option PyErr
deriving DecidableEq

/-- `test_subdomain` (osint_tools.py:325-357). -/
def test_subdomain (testDomain recordType : String) : ProbeBehavior → ProbeResult
  | .returns records =>
    { test_domain := testDomain, record_type := recordType,
      has_wildcard := true, records := records, error := none }
  | .raises e =>
    { test_domain := testDomain, record_type := recordType,
      has_wildcard := false, records := [], error := some e }

/-- The task list of osint_tools.py:360-363: for each test subdomain, an
"A" probe and a "CNAME" probe. -/
def wildcardTaskList (test_subdomains : List String) : List (String × String) :=
  test_subdomains.flatMap fun d => [(d, "A"), (d, "CNAME")]

/-- `test_results` (osint_tools.py:366-376): every probe's dict, one per
task (each probe's internal `except` guarantees no exception escapes to
`gather`, so none is skipped). -/
def wildcardProbeResults (test_subdomains : List String)
    (pbehav : Nat → ProbeBehavior) : List ProbeResult :=
  (wildcardTaskList test_subdomains).enum.map fun p =>
    test_subdomain p.2.1 p.2.2 (pbehav p.1)

/-- `wildcard_detected[rt]` (osint_tools.py:369-380): some probe of that
record type had `has_wildcard`. -/
def wildcard_detected (rt : String) (probes : List ProbeResult) : Bool :=
  probes.any fun p => p.record_type == rt && p.has_wildcard

/-- `wildcard_records[rt]` (osint_tools.py:370-384) as a duplicate-free
list: the set of records collected over that type's wildcard probes
(Python builds a `set`; only membership and cardinality are consumed). -/
def wildcard_records (rt : String) (probes : List ProbeResult) : List String :=
  ((probes.filter fun p => p.record_type == rt && p.has_wildcard).flatMap
    (·.records)).dedup

/-- `has_any_wildcard` (osint_tools.py:386). -/
def has_any_wildcard (probes : List ProbeResult) : Bool :=
  wildcard_detected "A" probes || wildcard_detected "CNAME" probes

/-- `any(len(wildcard_records[rt]) > 1 for rt in wildcard_records)`
(osint_tools.py:419). -/
def multipleTargets (probes : List ProbeResult) : Bool :=
  1 < (wildcard_records "A" probes).length ||
    1 < (wildcard_records "CNAME" probes).length

/-- `all_records` (osint_tools.py:424-426): union of both types' record
sets. -/
def allWildcardRecords (probes : List ProbeResult) : List String :=
  (wildcard_records "A" probes ++ wildcard_records "CNAME" probes).dedup

/-- `has_cdn_pattern` (osint_tools.py:428-431). -/
def has_cdn_pattern (probes : List ProbeResult) : Bool :=
  (allWildcardRecords probes).any is_cdn_related

/-- `risk_level` as computed by osint_tools.py:406-437: `"LOW"` without a
wildcard; otherwise `"MEDIUM"`, raised to `"HIGH"` when some record type
collected more than one distinct target, and finally
`risk_level = "LOW" if risk_level == "MEDIUM" else risk_level` when a
CDN indicator matches — so only `"MEDIUM"` is downgraded. -/
def risk_level (probes : List ProbeResult) : String :=
  if has_any_wildcard probes then
    let r := if multipleTargets probes then "HIGH" else "MEDIUM"
    if has_cdn_pattern probes then (if r = "MEDIUM" then "LOW" else r) else r
  else
    "LOW"

/-! ## osint_tools.py — response-time analysis

Embedded from `src/dns_mcp_server/osint_tools.py` lines 464-617 (the
parts the claims quantify: the iteration loop's counters and the failure
rate). -/

/-- What one timing iteration's query does (`t` is the measured
wall-clock latency). -/
inductive IterOutcome where
  | ok (t : ℚ)
  | fail (e : PyErr) (t : ℚ)

/-- Accumulated loop state of osint_tools.py:503-534. -/
structure AnalysisState where
  response_times : List ℚ
  errors : List (Nat × PyErr)
  successful_queries : Nat

/-- The `for i in range(iterations)` loop (osint_tools.py:507-534):
successes append a latency and bump the counter, failures append an
error entry tagged `i + 1`. -/
def analysisLoop (oracle : Nat → IterOutcome) (iterations : Int) : AnalysisState :=
  (List.range iterations.toNat).foldl
    (fun st i =>
      match oracle i with
      | .ok t =>
        { st with response_times := st.response_times ++ [t],
                  successful_queries := st.successful_queries + 1 }
      | .fail e _ =>
        { st with errors := st.errors ++ [(i + 1, e)] })
    ⟨[], [], 0⟩

/-- `failure_rate = len(errors) / iterations if iterations > 0 else 0`
(osint_tools.py:569) — the guard is what prevents division by zero. -/
def failure_rate (iterations : Int) (st : AnalysisState) : ℚ :=
  if 0 < iterations then (st.errors.length : ℚ) / (iterations : ℚ) else 0

/-! ## Lemmas and claim theorems -/

theorem dictGet_dictSet_self (d : PyDict) (k : String) (v : PyVal) :
    dictGet (dictSet d k v) k = some v := by
  induction d with
  | nil => simp [dictSet, dictGet]
  | cons kv t ih =>
    by_cases h : kv.1 = k
    · simp [dictSet, dictGet, h]
    · simp [dictSet, dictGet, h, ih]

theorem dictGet_dictSet_ne (d : PyDict) (k k' : String) (v : PyVal) (h : k ≠ k') :
    dictGet (dictSet d k v) k' = dictGet d k' := by
  induction d with
  | nil => simp [dictSet, dictGet, h]
  | cons kv t ih =>
    by_cases hk : kv.1 = k
    · simp [dictSet, dictGet, hk, h]
    · simp only [dictSet, hk, if_false, dictGet, ih]

theorem dictGet_dictUpdate (d : PyDict) (kvs : PyDict) (k : String) :
    dictGet (dictUpdate d kvs) k =
      match lookupLast kvs k with
      | some v => some v
      | none => dictGet d k := by
  induction kvs generalizing d with
  | nil => simp [dictUpdate, lookupLast]
  | cons kv t ih =>
    show dictGet (dictUpdate (dictSet d kv.1 kv.2) t) k = _
    rw [ih]
    cases hlt : lookupLast t k with
    | some v => simp [lookupLast, hlt]
    | none =>
      by_cases hk : kv.1 = k
      · subst hk
        simp [lookupLast, hlt, dictGet_dictSet_self]
      · simp [lookupLast, hlt, hk, dictGet_dictSet_ne d kv.1 k kv.2 hk]

theorem sortRecords_perm (l : List String) : (sortRecords l).Perm l :=
  List.perm_insertionSort _ l

/-- Two record lists get the same grouping key iff they are permutations
of one another: order-insensitive, but duplicates stay significant. -/
theorem sortRecords_eq_iff_perm (l₁ l₂ : List String) :
    sortRecords l₁ = sortRecords l₂ ↔ l₁.Perm l₂ := by
  constructor
  · intro h
    exact ((sortRecords_perm l₁).symm.trans (h ▸ sortRecords_perm l₂))
  · intro h
    exact List.eq_of_perm_of_sorted
      (((sortRecords_perm l₁).trans h).trans (sortRecords_perm l₂).symm)
      (List.sorted_insertionSort _ l₁) (List.sorted_insertionSort _ l₂)

theorem dictGet_applyClassification_error (d : PyDict) (e t : String) (ins : PyVal) :
    dictGet (applyClassification d e t ins) "error" = some (.s e) := by
  show dictGet (dictSet (dictSet (dictSet d "error" (.s e)) "type" (.s t))
        "osint_insights" ins) "error" = some (.s e)
  rw [dictGet_dictSet_ne _ _ _ _ (by decide), dictGet_dictSet_ne _ _ _ _ (by decide),
    dictGet_dictSet_self]

theorem dictGet_applyClassification_other (d : PyDict) (e t : String) (ins : PyVal)
    (k : String) (h1 : k ≠ "error") (h2 : k ≠ "type") (h3 : k ≠ "osint_insights") :
    dictGet (applyClassification d e t ins) k = dictGet d k := by
  show dictGet (dictSet (dictSet (dictSet d "error" (.s e)) "type" (.s t))
        "osint_insights" ins) k = dictGet d k
  rw [dictGet_dictSet_ne _ _ _ _ (fun h => h3 h.symm),
    dictGet_dictSet_ne _ _ _ _ (fun h => h2 h.symm),
    dictGet_dictSet_ne _ _ _ _ (fun h => h1 h.symm)]

theorem gatherLog_find (α : Type) (f : Nat → GatherElem α) (order : List Nat)
    (i : Nat) (h : i ∈ order) :
    (gatherLog f order).find? (fun p => p.1 == i) = some (i, f i) := by
  induction order with
  | nil => cases h
  | cons j t ih =>
    show List.find? (fun p => p.1 == i) ((j, f j) :: gatherLog f t) = some (i, f i)
    by_cases hj : j = i
    · subst hj
      rw [List.find?_cons_of_pos _ (by simp)]
    · have hmem : i ∈ t := by
        cases h with
        | head => exact absurd rfl hj
        | tail _ h => exact h
      rw [List.find?_cons_of_neg _ (by simp [hj])]
      exact ih hmem

theorem asyncGather_getElem (α : Type) (f : Nat → GatherElem α) (order : List Nat)
    (n : Nat) (h : order.Perm (List.range n)) (i : Nat) (hi : i < n) :
    (asyncGather f order n)[i]? = some (some (f i)) := by
  have hmem : i ∈ order := h.mem_iff.2 (List.mem_range.2 hi)
  simp [asyncGather, gatherAssemble, List.getElem?_map, List.getElem?_range hi,
    gatherLog_find α f order i hmem]

theorem asyncGather_length (α : Type) (f : Nat → GatherElem α) (order : List Nat)
    (n : Nat) : (asyncGather f order n).length = n := by
  simp [asyncGather, gatherAssemble]

theorem dnsBulkDispatch_length (domains : List String) (record_type : String)
    (behav : Nat → TaskBehavior) (order : List Nat) :
    (dnsBulkDispatch domains record_type behav order).length = domains.length := by
  simp [dnsBulkDispatch, processResults, asyncGather, gatherAssemble]

theorem dnsBulkDispatch_getElem (domains : List String) (record_type : String)
    (behav : Nat → TaskBehavior) (order : List Nat)
    (h : order.Perm (List.range domains.length)) (i : Nat) (hi : i < domains.length) :
    (dnsBulkDispatch domains record_type behav order)[i]? =
      some (some (expectedItem (domains.getD i "") record_type (behav i))) := by
  have hg := asyncGather_getElem BulkItem
    (fun i => rate_limited_query record_type (domains.getD i "") (behav i))
    order domains.length h i hi
  have hlen : (asyncGather
      (fun i => rate_limited_query record_type (domains.getD i "") (behav i))
      order domains.length).length = domains.length :=
    asyncGather_length _ _ _ _
  simp only [dnsBulkDispatch, processResults, List.getElem?_map, List.getElem?_enum, hg]
  cases hb : behav i <;>
    simp [rate_limited_query, query_single_domain, expectedItem, hb]

theorem dnsReverseDispatch_length (ips : List String) (behav : Nat → ReverseBehavior)
    (order : List Nat) : (dnsReverseDispatch ips behav order).length = ips.length := by
  simp [dnsReverseDispatch, processReverseResults, asyncGather, gatherAssemble]

theorem dnsReverseDispatch_getElem (ips : List String) (behav : Nat → ReverseBehavior)
    (order : List Nat) (h : order.Perm (List.range ips.length)) (i : Nat)
    (hi : i < ips.length) :
    (dnsReverseDispatch ips behav order)[i]? =
      some (some (expectedReverseItem (ips.getD i "") (behav i))) := by
  have hg := asyncGather_getElem ReverseItem
    (fun i => rate_limited_reverse_lookup (ips.getD i "") (behav i))
    order ips.length h i hi
  simp only [dnsReverseDispatch, processReverseResults, List.getElem?_map,
    List.getElem?_enum, hg]
  cases hb : behav i <;>
    simp [rate_limited_reverse_lookup, reverse_lookup_single_ip, expectedReverseItem, hb]

theorem dedup_eq_singleton_of_all_eq {α : Type} [DecidableEq α] (l : List α) (a : α)
    (hne : l ≠ []) (hall : ∀ x ∈ l, x = a) : l.dedup = [a] := by
  induction l with
  | nil => exact absurd rfl hne
  | cons b t ih =>
    have hb : b = a := hall b (List.mem_cons_self b t)
    subst hb
    cases t with
    | nil => simp [List.dedup]
    | cons c t' =>
      have hrest : ∀ x ∈ c :: t', x = b := fun x hx => hall x (List.mem_cons_of_mem b hx)
      have hc : b ∈ c :: t' := by
        have := hrest c (List.mem_cons_self c t')
        subst this
        exact List.mem_cons_self c t'
      rw [List.dedup_cons_of_mem hc]
      exact ih (by simp) hrest

theorem two_le_dedup_length_of_ne {α : Type} [DecidableEq α] (l : List α) (a b : α)
    (ha : a ∈ l) (hb : b ∈ l) (hab : a ≠ b) : 2 ≤ l.dedup.length := by
  have ha' : a ∈ l.dedup := List.mem_dedup.2 ha
  have hb' : b ∈ l.dedup := List.mem_dedup.2 hb
  match hd : l.dedup with
  | [] => rw [hd] at ha'; cases ha'
  | [x] =>
    rw [hd] at ha' hb'
    simp only [List.mem_singleton] at ha' hb'
    exact absurd (ha'.trans hb'.symm) hab
  | x :: y :: t => simp

theorem format_error_response_other_keys (errorType errorMsg : String)
    (context : Option PyDict) (now : String) (k : String)
    (h1 : k ≠ "error") (h2 : k ≠ "type") (h3 : k ≠ "osint_insights") :
    dictGet (format_error_response errorType errorMsg context now) k =
      dictGet (mergedResponse errorType errorMsg now context) k := by
  unfold format_error_response
  split
  · exact dictGet_applyClassification_other _ _ _ _ k h1 h2 h3
  split
  · exact dictGet_applyClassification_other _ _ _ _ k h1 h2 h3
  split
  · exact dictGet_applyClassification_other _ _ _ _ k h1 h2 h3
  split
  · exact dictGet_applyClassification_other _ _ _ _ k h1 h2 h3
  split
  · exact dictGet_applyClassification_other _ _ _ _ k h1 h2 h3
  rfl

/-- C1 counterexample: `dns_bulk_query` applies no floor-of-1 / ceiling-of-50
clamp.  With 3 tasks, `max_workers = 0` yields a semaphore of size 3 (the
`or 10` fallback, then `min` with the task count) rather than the claimed
floor of 1; `max_workers = -1` passes through as `-1`; with 100 tasks,
`max_workers = 60` yields 60, above the claimed safety ceiling of 50. -/
theorem bulk_effective_concurrency_cex :
    actual_workers 0 3 = 3 ∧ actual_workers 0 3 ≠ 1 ∧
    actual_workers (-1) 3 = -1 ∧ actual_workers (-1) 3 ≠ 1 ∧
    50 < actual_workers 60 100 := by
  refine ⟨by decide, by decide, by decide, by decide, by decide⟩

/-- C1 (amended): for a non-empty task list the semaphore size is
`min(w, len(tasks))` where `w` is `max_workers` when nonzero and the
default 10 when `max_workers == 0`; no floor/ceiling clamp is applied by
the bulk dispatch — the claimed clamp to `[1, 50]` exists only in
`DNSServerConfig.validate_max_workers`, which `dns_bulk_query` never
calls.  In particular for `0 < max_workers` with `len(tasks) ≤
max_workers` the effective concurrency is `len(tasks)`. -/
theorem dns_bulk_query_effective_concurrency (mw : Int) (n : Nat) (hn : 0 < n) :
    (mw ≠ 0 → actual_workers mw n = min mw (n : Int)) ∧
    (mw = 0 → actual_workers mw n = min 10 (n : Int)) ∧
    (0 < mw → (n : Int) ≤ mw → actual_workers mw n = (n : Int)) ∧
    (mw ≤ 0 → validate_max_workers mw = 1) ∧
    (50 ≤ mw → validate_max_workers mw = 50) := by
  have hn' : (0 : Int) < (n : Int) := by exact_mod_cast hn
  refine ⟨?_, ?_, ?_, ?_, ?_⟩
  · intro h
    simp [actual_workers, bulkMaxWorkers, h]
  · intro h
    simp [actual_workers, bulkMaxWorkers, h]
  · intro h1 h2
    have : mw ≠ 0 := by omega
    simp only [actual_workers, bulkMaxWorkers, this, if_false]
    omega
  · intro h
    simp only [validate_max_workers, max_concurrent_workers]
    omega
  · intro h
    simp only [validate_max_workers, max_concurrent_workers]
    omega

/-- C1 witness: the amended statement evaluated at `max_workers = 7`,
three tasks. -/
theorem dns_bulk_query_effective_concurrency_witness :
    (0 : Nat) < 3 ∧ (7 : Int) ≠ 0 ∧ actual_workers 7 3 = min 7 (3 : Int) :=
  ⟨by decide, by decide,
    (dns_bulk_query_effective_concurrency 7 3 (by decide)).1 (by decide)⟩

/-- C8: both bulk tools return the zero-valued report on empty input —
counts 0, times 0.0, `results == []` — without dispatching a task or
creating a semaphore, and without raising. -/
theorem bulk_empty_input_zero_report (record_type nameserverOrType : String)
    (mw : Int) (behav : Nat → TaskBehavior) (rbehav : Nat → ReverseBehavior)
    (order rorder : List Nat) (t t' : ℚ) (resolverId : String) :
    dns_bulk_query [] record_type mw behav order t resolverId =
      { report :=
          { bulk_query := true
            record_type := (strToUpper record_type)
            nameserver := none
            domain_count := 0
            successful_queries := 0
            failed_queries := 0
            total_query_time_seconds := 0
            average_query_time_seconds := 0
            results := [] }
        dispatched_tasks := 0
        semaphore_created := false
        semaphore_size := none } ∧
    dns_bulk_reverse_lookup [] nameserverOrType mw rbehav rorder t' =
      { report :=
          { bulk_reverse_lookup := true
            nameserver := none
            ip_count := 0
            successful_queries := 0
            failed_queries := 0
            total_query_time_seconds := 0
            average_query_time_seconds := 0
            results := [] }
        dispatched_tasks := 0
        semaphore_created := false
        semaphore_size := none } :=
  ⟨rfl, rfl⟩

/-- C9: with `iterations == 0` the analysis loop runs zero times —
`successful_queries == 0`, no error entries, and the guarded
failure-rate computation returns `0.0` without dividing by the zero
iteration count. -/
theorem dns_response_analysis_zero_iterations (oracle : Nat → IterOutcome) :
    (analysisLoop oracle 0).successful_queries = 0 ∧
    (analysisLoop oracle 0).errors.length = 0 ∧
    failure_rate 0 (analysisLoop oracle 0) = 0 := by
  refine ⟨rfl, rfl, ?_⟩
  simp [failure_rate]

/-- C10: `AsyncDNSResolver.query` on a record type whose uppercase form
is outside the supported set raises `ValueError` after acquiring the
per-resolver rate-limiter token and before any network resolution: the
event trace is exactly the token acquisition, with no network event. -/
theorem resolver_query_invalid_type (resolverId domain recordType : String)
    (netResult : List String)
    (h : query_type_map.contains (strToUpper recordType) = false) :
    (AsyncDNSResolver.query resolverId domain recordType netResult).2 =
      .error ("Unsupported record type: " ++ recordType) ∧
    (AsyncDNSResolver.query resolverId domain recordType netResult).1 =
      [.acquireToken resolverId] ∧
    (AsyncDNSResolver.query resolverId domain recordType netResult).1.all
      (fun ev => !ev.isNetwork) = true := by
  have h' : strToUpper recordType ∉ query_type_map := by
    simpa using h
  refine ⟨?_, ?_, ?_⟩ <;> simp [AsyncDNSResolver.query, h', QueryEvent.isNetwork]

/-- C10 witness: record type `"foo"` (uppercased `"FOO"`, unsupported). -/
theorem resolver_query_invalid_type_witness :
    query_type_map.contains ((strToUpper "foo")) = false ∧
    (AsyncDNSResolver.query "google" "example.com" "foo" []).1 =
      [.acquireToken "google"] :=
  ⟨by decide,
    (resolver_query_invalid_type "google" "example.com" "foo" [] (by decide)).2.1⟩

theorem wildcardTaskList_length (test_subdomains : List String) :
    (wildcardTaskList test_subdomains).length = 2 * test_subdomains.length := by
  induction test_subdomains with
  | nil => rfl
  | cons d t ih =>
    simp only [wildcardTaskList] at ih ⊢
    rw [List.flatMap_cons, List.length_append, ih]
    simp only [List.length_cons, List.length_nil]
    omega

theorem wildcardProbeResults_getElem (test_subdomains : List String)
    (pbehav : Nat → ProbeBehavior) (k : Nat) :
    (wildcardProbeResults test_subdomains pbehav)[k]? =
      ((wildcardTaskList test_subdomains)[k]?).map
        (fun td => test_subdomain td.1 td.2 (pbehav k)) := by
  simp only [wildcardProbeResults, List.getElem?_map, List.getElem?_enum]
  cases (wildcardTaskList test_subdomains)[k]? <;> rfl

/-- C2: bulk dispatch preserves input order for every completion order
of the concurrent tasks: the result list has the input's length and the
entry at index `i` is a function of task `i` alone, carrying the domain
(resp. IP) of input `i`. -/
theorem bulk_dispatch_preserves_input_order
    (domains ips : List String) (record_type : String)
    (behav : Nat → TaskBehavior) (rbehav : Nat → ReverseBehavior)
    (order rorder : List Nat)
    (h : order.Perm (List.range domains.length))
    (h2 : rorder.Perm (List.range ips.length)) :
    ((dnsBulkDispatch domains record_type behav order).length = domains.length ∧
      ∀ i, i < domains.length →
        (dnsBulkDispatch domains record_type behav order)[i]? =
          some (some (expectedItem (domains.getD i "") record_type (behav i))) ∧
        (expectedItem (domains.getD i "") record_type (behav i)).domain =
          domains.getD i "") ∧
    ((dnsReverseDispatch ips rbehav rorder).length = ips.length ∧
      ∀ i, i < ips.length →
        (dnsReverseDispatch ips rbehav rorder)[i]? =
          some (some (expectedReverseItem (ips.getD i "") (rbehav i))) ∧
        (expectedReverseItem (ips.getD i "") (rbehav i)).ip = ips.getD i "") := by
  refine ⟨⟨dnsBulkDispatch_length _ _ _ _, fun i hi => ⟨?_, ?_⟩⟩,
    ⟨dnsReverseDispatch_length _ _ _, fun i hi => ⟨?_, ?_⟩⟩⟩
  · exact dnsBulkDispatch_getElem domains record_type behav order h i hi
  · cases hb : behav i <;> simp [expectedItem, BulkItem.domain]
  · exact dnsReverseDispatch_getElem ips rbehav rorder h2 i hi
  · cases hb : rbehav i <;> simp [expectedReverseItem, ReverseItem.ip]

/-- C2 witness: two domains dispatched with reversed completion order,
one IP reverse-looked-up. -/
theorem bulk_dispatch_preserves_input_order_witness :
    ([1, 0].Perm (List.range 2)) ∧
    (dnsBulkDispatch ["a.com", "b.com"] "A"
      (fun _ => .returns ["1.2.3.4"]) [1, 0]).length = 2 ∧
    (dnsReverseDispatch ["8.8.8.8"]
      (fun _ => .ok "8.8.8.8.in-addr.arpa" ["dns.google"]) [0]).length = 1 := by
  have hmain := bulk_dispatch_preserves_input_order
    ["a.com", "b.com"] ["8.8.8.8"] "A"
    (fun _ => .returns ["1.2.3.4"])
    (fun _ => .ok "8.8.8.8.in-addr.arpa" ["dns.google"])
    [1, 0] [0] (by decide) (by decide)
  exact ⟨by decide, hmain.1.1, hmain.2.1⟩

/-- C3: an exception inside one task — raised within the per-task query
and caught there, or escaping to `gather` — is recorded as the error
entry of that task alone: the aggregate still has one entry per task,
the failing index carries the error entry, and every other index is
unchanged with respect to replacing the failing task's behaviour.
Likewise each wildcard-check probe records its own exception in its own
`test_results` entry, one entry per task. -/
theorem bulk_task_failure_isolation
    (domains : List String) (record_type : String)
    (behav behav2 : Nat → TaskBehavior) (order : List Nat) (i : Nat) (e : PyErr)
    (h : order.Perm (List.range domains.length)) (hi : i < domains.length)
    (hfail : behav i = .raises e ∨ behav i = .taskFails e)
    (hagree : ∀ j, j ≠ i → behav j = behav2 j) :
    (dnsBulkDispatch domains record_type behav order).length = domains.length ∧
    (dnsBulkDispatch domains record_type behav order)[i]? =
      some (some (.err (domains.getD i "") (strToUpper record_type) e)) ∧
    (∀ j, j < domains.length → j ≠ i →
      (dnsBulkDispatch domains record_type behav order)[j]? =
        (dnsBulkDispatch domains record_type behav2 order)[j]?) ∧
    (∀ (subs : List String) (pbehav : Nat → ProbeBehavior) (k : Nat) (e' : PyErr),
      k < 2 * subs.length → pbehav k = .raises e' →
      (wildcardProbeResults subs pbehav).length = 2 * subs.length ∧
      ∃ r, (wildcardProbeResults subs pbehav)[k]? = some r ∧
        r.has_wildcard = false ∧ r.error = some e') := by
  refine ⟨dnsBulkDispatch_length _ _ _ _, ?_, ?_, ?_⟩
  · rw [dnsBulkDispatch_getElem domains record_type behav order h i hi]
    rcases hfail with hf | hf <;> rw [hf] <;> rfl
  · intro j hj hji
    rw [dnsBulkDispatch_getElem domains record_type behav order h j hj,
      dnsBulkDispatch_getElem domains record_type behav2 order h j hj,
      hagree j hji]
  · intro subs pbehav k e' hk hpk
    have hlen : (wildcardProbeResults subs pbehav).length = 2 * subs.length := by
      simp [wildcardProbeResults, wildcardTaskList_length]
    refine ⟨hlen, ?_⟩
    have hk' : k < (wildcardTaskList subs).length := by
      rw [wildcardTaskList_length]; exact hk
    obtain ⟨td, htd⟩ : ∃ td, (wildcardTaskList subs)[k]? = some td :=
      ⟨(wildcardTaskList subs)[k], List.getElem?_eq_getElem hk'⟩
    refine ⟨test_subdomain td.1 td.2 (pbehav k), ?_, ?_, ?_⟩
    · rw [wildcardProbeResults_getElem subs pbehav k, htd]
      rfl
    · rw [hpk]; rfl
    · rw [hpk]; rfl

/-- C3 witness: two domains, task 0 raising inside the query; plus one
wildcard probe subdomain whose "A" probe raises. -/
theorem bulk_task_failure_isolation_witness :
    (dnsBulkDispatch ["a.com", "b.com"] "A"
      (fun j => if j = 0 then .raises ⟨"DNSError", "NXDOMAIN"⟩
                else .returns ["1.2.3.4"]) [0, 1])[0]? =
      some (some (.err "a.com" (strToUpper "A") ⟨"DNSError", "NXDOMAIN"⟩)) := by
  have hmain := bulk_task_failure_isolation
    ["a.com", "b.com"] "A"
    (fun j => if j = 0 then .raises ⟨"DNSError", "NXDOMAIN"⟩
              else .returns ["1.2.3.4"])
    (fun _ => .returns ["1.2.3.4"])
    [0, 1] 0 ⟨"DNSError", "NXDOMAIN"⟩
    (by decide) (by decide) (Or.inl rfl)
    (fun j hj => by simp [hj])
  exact hmain.2.1

/-- C4: propagation responses group by the sorted, non-deduplicated
record tuple — the key is order-insensitive exactly up to permutation
(so duplicates stay significant); `is_consistent` holds iff at most one
group exists and `unique_response_count` is the number of groups;
identical record sets everywhere give one consistent group, two
differing successful resolvers give inconsistency with at least two
groups. -/
theorem dns_propagation_check_grouping (results : List PropResult)
    (k : List String) (a b : PropResult) :
    (∀ l₁ l₂ : List String, sortRecords l₁ = sortRecords l₂ ↔ l₁.Perm l₂) ∧
    (is_consistent results = true ↔ unique_response_count results ≤ 1) ∧
    (successful_results results ≠ [] →
      (∀ r ∈ successful_results results, sortRecords r.records = k) →
      is_consistent results = true ∧ unique_response_count results = 1) ∧
    (a ∈ successful_results results → b ∈ successful_results results →
      sortRecords a.records ≠ sortRecords b.records →
      is_consistent results = false ∧ 2 ≤ unique_response_count results) := by
  refine ⟨sortRecords_eq_iff_perm, by simp [is_consistent], ?_, ?_⟩
  · intro hne hall
    have hmapne :
        ((successful_results results).map fun r => sortRecords r.records) ≠ [] := by
      simpa using hne
    have hmapall :
        ∀ x ∈ (successful_results results).map fun r => sortRecords r.records,
          x = k := by
      intro x hx
      obtain ⟨r, hr, rfl⟩ := List.mem_map.1 hx
      exact hall r hr
    have hded := dedup_eq_singleton_of_all_eq _ k hmapne hmapall
    refine ⟨?_, ?_⟩ <;>
      simp [is_consistent, unique_response_count, responseGroupKeys, hded]
  · intro ha hb hne
    have h2 : 2 ≤ unique_response_count results :=
      two_le_dedup_length_of_ne _ _ _
        (List.mem_map_of_mem _ ha) (List.mem_map_of_mem _ hb) hne
    have hnot : ¬ unique_response_count results ≤ 1 := by omega
    exact ⟨by simp [is_consistent, hnot], h2⟩

/-- C4 witness: two resolvers returning the same records in different
order form one consistent group; two resolvers with different records
are inconsistent with two groups. -/
theorem dns_propagation_check_grouping_witness :
    is_consistent [⟨"google", true, ["2.2.2.2", "1.1.1.1"]⟩,
        ⟨"cloudflare", true, ["1.1.1.1", "2.2.2.2"]⟩] = true ∧
    unique_response_count [⟨"google", true, ["2.2.2.2", "1.1.1.1"]⟩,
        ⟨"cloudflare", true, ["1.1.1.1", "2.2.2.2"]⟩] = 1 ∧
    is_consistent [⟨"google", true, ["1.1.1.1"]⟩,
        ⟨"quad9", true, ["9.9.9.9"]⟩] = false ∧
    2 ≤ unique_response_count [⟨"google", true, ["1.1.1.1"]⟩,
        ⟨"quad9", true, ["9.9.9.9"]⟩] := by
  have hA := (dns_propagation_check_grouping
      [⟨"google", true, ["2.2.2.2", "1.1.1.1"]⟩,
       ⟨"cloudflare", true, ["1.1.1.1", "2.2.2.2"]⟩]
      (sortRecords ["2.2.2.2", "1.1.1.1"])
      ⟨"google", true, ["2.2.2.2", "1.1.1.1"]⟩
      ⟨"google", true, ["2.2.2.2", "1.1.1.1"]⟩).2.2.1
    (by decide)
    (by
      intro r hr
      have hcases : r = ⟨"google", true, ["2.2.2.2", "1.1.1.1"]⟩ ∨
          r = ⟨"cloudflare", true, ["1.1.1.1", "2.2.2.2"]⟩ := by
        have : successful_results
            [⟨"google", true, ["2.2.2.2", "1.1.1.1"]⟩,
             ⟨"cloudflare", true, ["1.1.1.1", "2.2.2.2"]⟩] =
            [⟨"google", true, ["2.2.2.2", "1.1.1.1"]⟩,
             ⟨"cloudflare", true, ["1.1.1.1", "2.2.2.2"]⟩] := rfl
        rw [this] at hr
        simpa using hr
      rcases hcases with h | h
      · rw [h]
      · rw [h]
        exact (sortRecords_eq_iff_perm _ _).2 (by decide))
  have hB := (dns_propagation_check_grouping
      [⟨"google", true, ["1.1.1.1"]⟩, ⟨"quad9", true, ["9.9.9.9"]⟩]
      [] ⟨"google", true, ["1.1.1.1"]⟩ ⟨"quad9", true, ["9.9.9.9"]⟩).2.2.2
    (by decide) (by decide)
    (fun h => absurd ((sortRecords_eq_iff_perm _ _).1 h) (by decide))
  exact ⟨hA.1, hA.2, hB.1, hB.2⟩

/-- C5 counterexample: probes detecting an "A" wildcard with two
distinct targets, one containing the CDN indicator "cloudflare", still
yield `risk_level = "HIGH"`: the code's downgrade
(`risk_level = "LOW" if risk_level == "MEDIUM" else risk_level`,
osint_tools.py:435) leaves HIGH untouched, so a HIGH risk is not
downgraded toward LOW on a CDN-indicator match as claimed. -/
theorem dns_wildcard_risk_cex :
    has_any_wildcard
      [⟨"x.example.com", "A", true,
        ["wildcard.cloudflare.net", "203.0.113.7"], none⟩] = true ∧
    has_cdn_pattern
      [⟨"x.example.com", "A", true,
        ["wildcard.cloudflare.net", "203.0.113.7"], none⟩] = true ∧
    risk_level
      [⟨"x.example.com", "A", true,
        ["wildcard.cloudflare.net", "203.0.113.7"], none⟩] = "HIGH" :=
  ⟨by decide, by decide, by decide⟩

/-- C5 (amended): `risk_level` is LOW without a wildcard; with a
wildcard it is HIGH when some record type collected more than one
distinct target (regardless of CDN indicators), MEDIUM when every type
has at most one distinct target and no collected value matches a CDN
indicator (case-insensitive substring test), and LOW — the MEDIUM case
downgraded — when such a CDN indicator matches; a HIGH risk is never
downgraded. -/
theorem dns_wildcard_risk_classification (probes : List ProbeResult) :
    (has_any_wildcard probes = false → risk_level probes = "LOW") ∧
    (has_any_wildcard probes = true → multipleTargets probes = true →
      risk_level probes = "HIGH") ∧
    (has_any_wildcard probes = true → multipleTargets probes = false →
      has_cdn_pattern probes = false → risk_level probes = "MEDIUM") ∧
    (has_any_wildcard probes = true → multipleTargets probes = false →
      has_cdn_pattern probes = true → risk_level probes = "LOW") := by
  refine ⟨?_, ?_, ?_, ?_⟩
  · intro h
    simp [risk_level, h]
  · intro h1 h2
    cases hc : has_cdn_pattern probes <;> simp [risk_level, h1, h2, hc]
  · intro h1 h2 h3
    simp [risk_level, h1, h2, h3]
  · intro h1 h2 h3
    simp [risk_level, h1, h2, h3]

/-- C5 witness: a single-target wildcard without CDN indicator is
MEDIUM; the same with a CDN indicator is LOW; no wildcard is LOW. -/
theorem dns_wildcard_risk_classification_witness :
    risk_level [⟨"x.example.com", "A", true, ["203.0.113.7"], none⟩] =
      "MEDIUM" ∧
    risk_level [⟨"x.example.com", "CNAME", true, ["edge.fastly.net"], none⟩] =
      "LOW" ∧
    risk_level [⟨"x.example.com", "A", false, [],
      some ⟨"DNSError", "NXDOMAIN"⟩⟩] = "LOW" := by
  refine ⟨?_, ?_, ?_⟩
  · exact (dns_wildcard_risk_classification
      [⟨"x.example.com", "A", true, ["203.0.113.7"], none⟩]).2.2.1
      (by decide) (by decide) (by decide)
  · exact (dns_wildcard_risk_classification
      [⟨"x.example.com", "CNAME", true, ["edge.fastly.net"], none⟩]).2.2.2
      (by decide) (by decide) (by decide)
  · exact (dns_wildcard_risk_classification
      [⟨"x.example.com", "A", false, [], some ⟨"DNSError", "NXDOMAIN"⟩⟩]).1
      (by decide)

/-- C6: classification is an ordered first-match chain — a message
containing "NXDOMAIN" classifies as `domain_not_found` no matter what
other substrings appear; when none of the earlier patterns (NXDOMAIN,
"No such domain", "No answer", "NODATA") is present, a message
containing "timeout" (case-insensitively) or a type name containing
"Timeout" classifies as `timeout`. -/
theorem format_error_response_first_match (errorType errorMsg : String)
    (context : Option PyDict) (now : String) :
    (strContains errorMsg "NXDOMAIN" = true →
      dictGet (format_error_response errorType errorMsg context now) "error" =
        some (.s "domain_not_found")) ∧
    (strContains errorMsg "NXDOMAIN" = false →
      strContains errorMsg "No such domain" = false →
      strContains errorMsg "No answer" = false →
      strContains errorMsg "NODATA" = false →
      (strContains (strToLower errorMsg) "timeout" = true ∨
        strContains errorType "Timeout" = true) →
      dictGet (format_error_response errorType errorMsg context now) "error" =
        some (.s "timeout")) := by
  constructor
  · intro h
    simp only [format_error_response]
    rw [if_pos (by simp [h])]
    exact dictGet_applyClassification_error _ _ _ _
  · intro h1 h2 h3 h4 h5
    simp only [format_error_response]
    rw [if_neg (by simp [h1, h2]), if_neg (by simp [h3, h4]),
      if_pos (by rcases h5 with h | h <;> simp [h])]
    exact dictGet_applyClassification_error _ _ _ _

/-- C6 witness: an NXDOMAIN message also mentioning a timeout still
classifies as `domain_not_found`; a `TimeoutError` with no matching
message substrings classifies as `timeout`. -/
theorem format_error_response_first_match_witness :
    strContains "NXDOMAIN: domain gone; retry timeout later" "NXDOMAIN" = true ∧
    dictGet (format_error_response "DNSError"
      "NXDOMAIN: domain gone; retry timeout later" none "T") "error" =
      some (.s "domain_not_found") ∧
    strContains "TimeoutError" "Timeout" = true ∧
    dictGet (format_error_response "TimeoutError"
      "query took too long" none "T") "error" = some (.s "timeout") := by
  have hA := (format_error_response_first_match "DNSError"
    "NXDOMAIN: domain gone; retry timeout later" none "T").1 (by decide)
  have hB := (format_error_response_first_match "TimeoutError"
    "query took too long" none "T").2 (by decide) (by decide) (by decide)
    (by decide) (Or.inr (by decide))
  exact ⟨by decide, hA, by decide, hB⟩

/-- C7 counterexample: the context merge happens before classification,
so a caller context dictionary carrying the classifier-owned keys
overwrites them — here an unclassifiable error's `details` and
`timestamp` come out as the context's values, not the classifier's. -/
theorem format_error_response_context_overwrite_cex :
    dictGet (format_error_response "ValueError" "unclassified condition"
      (some [("details", .s "spoofed"), ("timestamp", .s "1999-01-01T00:00:00")])
      "2025-01-01T00:00:00") "details" = some (.s "spoofed") ∧
    dictGet (format_error_response "ValueError" "unclassified condition"
      (some [("details", .s "spoofed"), ("timestamp", .s "1999-01-01T00:00:00")])
      "2025-01-01T00:00:00") "details" ≠ some (.s "unclassified condition") ∧
    dictGet (format_error_response "ValueError" "unclassified condition"
      (some [("details", .s "spoofed"), ("timestamp", .s "1999-01-01T00:00:00")])
      "2025-01-01T00:00:00") "timestamp" = some (.s "1999-01-01T00:00:00") := by
  refine ⟨rfl, ?_, rfl⟩
  intro h
  have h0 : dictGet (format_error_response "ValueError" "unclassified condition"
      (some [("details", .s "spoofed"), ("timestamp", .s "1999-01-01T00:00:00")])
      "2025-01-01T00:00:00") "details" = some (.s "spoofed") := rfl
  rw [h0] at h
  injection h with h1
  injection h1 with h2
  exact absurd h2 (by decide)

/-- C7 (amended): `format_error_response` builds the base response
(error, type, details, UTC timestamp) and then merges the caller
context over it, so context keys may overwrite any base key; a matching
classification pattern afterwards overwrites `error`, `type` and
`osint_insights` (taking precedence over the context), while `details`
and `timestamp` keep context-supplied values.  When the context does
not assign `timestamp`, the output carries the classifier's UTC
timestamp; every context key outside the classifier-owned trio
(`error`, `type`, `osint_insights`) survives to the output with the
context's value. -/
theorem format_error_response_context_merge (errorType errorMsg now : String)
    (ctx : PyDict) :
    (lookupLast ctx "timestamp" = none →
      dictGet (format_error_response errorType errorMsg (some ctx) now)
        "timestamp" = some (.s now)) ∧
    (∀ k v, k ≠ "error" → k ≠ "type" → k ≠ "osint_insights" →
      lookupLast ctx k = some v →
      dictGet (format_error_response errorType errorMsg (some ctx) now) k =
        some v) := by
  constructor
  · intro hts
    rw [format_error_response_other_keys errorType errorMsg (some ctx) now
      "timestamp" (by decide) (by decide) (by decide)]
    show dictGet (dictUpdate (baseResponse errorType errorMsg now) ctx)
      "timestamp" = some (.s now)
    rw [dictGet_dictUpdate, hts]
    rfl
  · intro k v h1 h2 h3 hlk
    rw [format_error_response_other_keys errorType errorMsg (some ctx) now
      k h1 h2 h3]
    show dictGet (dictUpdate (baseResponse errorType errorMsg now) ctx) k =
      some v
    rw [dictGet_dictUpdate, hlk]

/-- C7 witness: a `domain`-only context leaves the timestamp intact and
surfaces the context field. -/
theorem format_error_response_context_merge_witness :
    dictGet (format_error_response "DNSError" "probe failed"
      (some [("domain", .s "x.example")]) "2025-06-01T00:00:00")
      "timestamp" = some (.s "2025-06-01T00:00:00") ∧
    dictGet (format_error_response "DNSError" "probe failed"
      (some [("domain", .s "x.example")]) "2025-06-01T00:00:00")
      "domain" = some (.s "x.example") := by
  have hmain := format_error_response_context_merge "DNSError" "probe failed"
    "2025-06-01T00:00:00" [("domain", .s "x.example")]
  exact ⟨hmain.1 rfl,
    hmain.2 "domain" (.s "x.example") (by decide) (by decide) (by decide) rfl⟩
